import Mathlib

/-!
Shallow embedding of `scripts/pycdt.py`, a command-line dispatcher with two
subcommands (`generate_input_files` and `parse_vasp_output`).  The script has
no algorithmic content of its own: each handler validates an identifier,
opens a database connection, fetches a structure and forwards data to
collaborator libraries.  We model the collaborators as an abstract
environment of (possibly failing) functions and each handler as a pure
function returning the list of external calls it performs (its effect
trace) together with an `Except` outcome (normal return or propagated
Python exception).
-/

set_option autoImplicit false

/-- A Python exception escaping the handler: either a `ValueError` raised by
the built-in `int()` on a malformed string, or an exception raised inside a
collaborator library (network, file I/O, ...). -/
inductive PyExc where
  | valueError (msg : String)
  | libError (msg : String)
deriving DecidableEq, Repr

/-- Decidable equality of `Except` values, used to evaluate the model on
closed inputs. -/
instance {ε α : Type} [DecidableEq ε] [DecidableEq α] : DecidableEq (Except ε α) :=
  fun a b =>
    match a, b with
    | Except.error e1, Except.error e2 =>
      match decEq e1 e2 with
      | isTrue h => isTrue (by rw [h])
      | isFalse h => isFalse (by intro hc; cases hc; exact h rfl)
    | Except.ok v1, Except.ok v2 =>
      match decEq v1 v2 with
      | isTrue h => isTrue (by rw [h])
      | isFalse h => isFalse (by intro hc; cases hc; exact h rfl)
    | Except.error _, Except.ok _ => isFalse (by intro hc; cases hc)
    | Except.ok _, Except.error _ => isFalse (by intro hc; cases hc)

/-- Decimal digits read as a natural number (helper for `pyInt`). -/
def digitsToNat (cs : List Char) : Nat :=
  cs.foldl (fun n c => 10 * n + (c.toNat - 48)) 0

/-- Characters of a string with surrounding whitespace removed (the strip
step Python's int() performs on its argument). -/
def trimChars (cs : List Char) : List Char :=
  ((cs.dropWhile Char.isWhitespace).reverse.dropWhile Char.isWhitespace).reverse

/-- Sign and digit characters of a stripped int() literal: a leading minus
gives a negative sign; a leading plus is consumed; anything else is read as
unsigned digits. -/
def signSplit (t : List Char) : Bool × List Char :=
  match t with
  | '-' :: rest => (true, rest)
  | '+' :: rest => (false, rest)
  | _ => (false, t)

/-- Model of the Python built-in `int()` applied to a string, as used at
lines 76-77 of `scripts/pycdt.py` (`int(oxi_range[i][1])`): surrounding
whitespace is stripped, an optional sign is read, and the rest must be a
non-empty run of decimal digits; otherwise a `ValueError` is raised. -/
def pyInt (s : String) : Except PyExc Int :=
  let t := trimChars s.data
  let neg := (signSplit t).1
  let ds := (signSplit t).2
  if ds ≠ [] ∧ ds.all Char.isDigit then
    Except.ok (if neg then -(digitsToNat ds : Int) else (digitsToNat ds : Int))
  else
    Except.error (PyExc.valueError ("invalid literal for int() with base 10: " ++ s))

/-- Python dictionary over string keys and integer-pair values, kept as an
insertion-ordered association list with unique keys: assignment to an
existing key overwrites its value in place, assignment to a fresh key
appends. -/
def dictInsert (d : List (String × Int × Int)) (k : String) (v : Int × Int) :
    List (String × Int × Int) :=
  if d.any (fun p => p.1 == k) then
    d.map (fun p => if p.1 = k then (k, v) else p)
  else
    d ++ [(k, v)]

/-- Lookup in the dictionary model. -/
def dictLookup (d : List (String × Int × Int)) (k : String) : Option (Int × Int) :=
  match d with
  | [] => none
  | (k2, v) :: rest => if k2 = k then some v else dictLookup rest k

/-- The loop at lines 74-77 of `scripts/pycdt.py`: starting from the empty
dict `oxi_range_dict`, each triple `(el, low, high)` performs
`oxi_range_dict[el] = (int(low), int(high))`; a malformed bound raises out
of the loop.  The accumulator argument is the dict built so far. -/
def buildOxiDict :
    List (String × String × String) → List (String × Int × Int) →
      Except PyExc (List (String × Int × Int))
  | [], d => Except.ok d
  | t :: rest, d =>
    match pyInt t.2.1 with
    | Except.error e => Except.error e
    | Except.ok lo =>
      match pyInt t.2.2 with
      | Except.error e => Except.error e
      | Except.ok hi => buildOxiDict rest (dictInsert d t.1 (lo, hi))

/-- One external call made by a handler.  `σ` is the type of structures
returned by the database, `δ` the type of the `ChargedDefectsStructures`
object, `π` the type of its `.defects` attribute. -/
inductive Effect (σ δ π : Type) where
  | print (s : String)
  | mpresterCtor (key : Option String)
  | fetchStructure (mpid : String)
  | makeVaspDielectricFiles (st : σ)
  | chargedDefectsStructuresCall (st : σ) (oxi : Option (List (String × Int × Int)))
      (cellmax : Int)
  | makeVaspDefectFilesCall (defs : π) (formula : String)
  | postProcessCall (root : Option String) (mpid : String) (key : Option String)
deriving DecidableEq, Repr

/-- The collaborator libraries consumed by the script, abstracted as
functions that may raise.  `get_structure_by_material_id` receives the key
the `MPRester` client was constructed with (`none` for the no-argument
constructor) and the identifier. -/
structure Env (σ δ π : Type) where
  get_structure_by_material_id : Option String → String → Except PyExc σ
  get_conventional_standard_structure : σ → Except PyExc σ
  make_vasp_dielectric_files : σ → Except PyExc Unit
  chargedDefectsStructures :
    σ → Option (List (String × Int × Int)) → Int → Except PyExc δ
  defects : δ → π
  reduced_formula : σ → String
  make_vasp_defect_files : π → String → Except PyExc Unit
  post_process_parse : Option String → String → Option String → Except PyExc Unit

/-- Arguments of the `generate_input_files` subcommand after argparse:
`mpid` has no default (`none` when the flag is absent), `mapi_key` defaults
to `None`, `nmax` to `128`, and `oxi_range` accumulates three-string groups
(`none` when the flag never appears). -/
structure GenArgs where
  mpid : Option String
  mapi_key : Option String
  nmax : Int
  oxi_range : Option (List (String × String × String))
deriving DecidableEq, Repr

/-- Arguments of the `parse_vasp_output` subcommand after argparse. -/
structure ParseArgs where
  mpid : Option String
  mapi_key : Option String
  root_fldr : Option String
deriving DecidableEq, Repr

/-- The exact banner printed by both handlers when the identifier is
missing or empty. -/
def ERROR_BANNER : String := "============\nERROR: Provide an mpid\n============"

/-- Python truthiness of a string: the empty string is falsy. -/
def pyStrFalsy (s : String) : Bool := s.isEmpty

/-- The argument the `MPRester` constructor receives: `if not mapi_key:`
selects the no-argument constructor, so both `None` and the empty string
yield `none`; any other string is passed through. -/
def ctorKey (mapi_key : Option String) : Option String :=
  match mapi_key with
  | none => none
  | some k => if k.isEmpty then none else some k

/-- Python truthiness of the `oxi_range` value (`if oxi_range:` at line 73):
`None` and the empty list are falsy. -/
def oxiTruthy : Option (List (String × String × String)) → Bool
  | none => false
  | some l => !l.isEmpty

/-- The oxidation-range argument handed to `ChargedDefectsStructures`: in
the truthy branch the dict built by the loop (whose `int()` conversions may
raise), wrapped in `some`; in the falsy branch no such argument (`none`),
matching the two call sites at lines 78-81. -/
def oxiDictResult (oxi_range : Option (List (String × String × String))) :
    Except PyExc (Option (List (String × Int × Int))) :=
  match oxi_range with
  | none => Except.ok none
  | some l =>
    if l.isEmpty then Except.ok none
    else
      match buildOxiDict l [] with
      | Except.error e => Except.error e
      | Except.ok d => Except.ok (some d)

/-- The tail of `generate_input_files` after the structure fetch succeeded:
conventional-cell transformation, dielectric file writing, defect
enumeration (with or without the oxidation dict) and defect file writing.
Returns the effects performed from this point on and the outcome. -/
def genAfterFetch {σ δ π : Type} (env : Env σ δ π) (args : GenArgs) (prim : σ) :
    List (Effect σ δ π) × Except PyExc Unit :=
  match env.get_conventional_standard_structure prim with
  | Except.error e => ([], Except.error e)
  | Except.ok conv =>
    match env.make_vasp_dielectric_files prim with
    | Except.error e => ([Effect.makeVaspDielectricFiles prim], Except.error e)
    | Except.ok _ =>
      match oxiDictResult args.oxi_range with
      | Except.error e => ([Effect.makeVaspDielectricFiles prim], Except.error e)
      | Except.ok od =>
        match env.chargedDefectsStructures conv od args.nmax with
        | Except.error e =>
          ([Effect.makeVaspDielectricFiles prim,
            Effect.chargedDefectsStructuresCall conv od args.nmax], Except.error e)
        | Except.ok ds =>
          match env.make_vasp_defect_files (env.defects ds) (env.reduced_formula conv) with
          | Except.error e =>
            ([Effect.makeVaspDielectricFiles prim,
              Effect.chargedDefectsStructuresCall conv od args.nmax,
              Effect.makeVaspDefectFilesCall (env.defects ds)
                (env.reduced_formula conv)], Except.error e)
          | Except.ok _ =>
            ([Effect.makeVaspDielectricFiles prim,
              Effect.chargedDefectsStructuresCall conv od args.nmax,
              Effect.makeVaspDefectFilesCall (env.defects ds)
                (env.reduced_formula conv)], Except.ok ())

/-- The `generate_input_files` handler (lines 34-85 of `scripts/pycdt.py`)
as a trace-producing function.  A falsy `mpid` prints the banner and
returns; otherwise the `MPRester` client is constructed, the structure is
fetched, and the work is delegated. -/
def generate_input_files {σ δ π : Type} (env : Env σ δ π) (args : GenArgs) :
    List (Effect σ δ π) × Except PyExc Unit :=
  match args.mpid with
  | none => ([Effect.print ERROR_BANNER], Except.ok ())
  | some m =>
    if pyStrFalsy m then ([Effect.print ERROR_BANNER], Except.ok ())
    else
      match env.get_structure_by_material_id (ctorKey args.mapi_key) m with
      | Except.error e =>
        ([Effect.mpresterCtor (ctorKey args.mapi_key), Effect.fetchStructure m],
         Except.error e)
      | Except.ok prim =>
        ([Effect.mpresterCtor (ctorKey args.mapi_key), Effect.fetchStructure m] ++
           (genAfterFetch env args prim).1,
         (genAfterFetch env args prim).2)

/-- The `parse_vasp_output` handler (lines 88-117 of `scripts/pycdt.py`):
after the identifier check and the structure fetch, `PostProcess` receives
only `(root_fldr, mpid, mapi_key)` — the fetched structure is not passed. -/
def parse_vasp_output {σ δ π : Type} (env : Env σ δ π) (args : ParseArgs) :
    List (Effect σ δ π) × Except PyExc Unit :=
  match args.mpid with
  | none => ([Effect.print ERROR_BANNER], Except.ok ())
  | some m =>
    if pyStrFalsy m then ([Effect.print ERROR_BANNER], Except.ok ())
    else
      match env.get_structure_by_material_id (ctorKey args.mapi_key) m with
      | Except.error e =>
        ([Effect.mpresterCtor (ctorKey args.mapi_key), Effect.fetchStructure m],
         Except.error e)
      | Except.ok _prim =>
        ([Effect.mpresterCtor (ctorKey args.mapi_key), Effect.fetchStructure m,
          Effect.postProcessCall args.root_fldr m args.mapi_key],
         match env.post_process_parse args.root_fldr m args.mapi_key with
         | Except.error e => Except.error e
         | Except.ok _ => Except.ok ())

/-- Model of Python `str.lower` (the `type=str.lower` converter on the
`--mpid` flag). -/
def pyStrLower (s : String) : String := String.mk (s.data.map Char.toLower)

/-- The argparse layer for `generate_input_files` (lines 146-157): `--mpid`
is lowercased by its `type=str.lower` converter, `--mapi_key` defaults to
`None`, `--nmax` defaults to `128`, `--oxi_range` appends triples. -/
def parseGenArgs (rawMpid : Option String) (rawMapiKey : Option String)
    (rawNmax : Option Int) (rawOxi : Option (List (String × String × String))) :
    GenArgs :=
  { mpid := rawMpid.map pyStrLower
    mapi_key := rawMapiKey
    nmax := rawNmax.getD 128
    oxi_range := rawOxi }

/-- The argparse layer for `parse_vasp_output` (lines 159-168): `--mpid` is
lowercased, `--mapi_key` and `--dir` default to `None`. -/
def parseParseArgs (rawMpid : Option String) (rawMapiKey : Option String)
    (rawDir : Option String) : ParseArgs :=
  { mpid := rawMpid.map pyStrLower
    mapi_key := rawMapiKey
    root_fldr := rawDir }

/-- A concrete, fully successful environment used to evaluate the handlers
on closed inputs: structures and defect sets are tagged strings. -/
def envA : Env String String String :=
  { get_structure_by_material_id := fun _ m => Except.ok ("prim-" ++ m)
    get_conventional_standard_structure := fun s => Except.ok ("conv-" ++ s)
    make_vasp_dielectric_files := fun _ => Except.ok ()
    chargedDefectsStructures := fun _ _ _ => Except.ok "cds"
    defects := fun d => d ++ "-defects"
    reduced_formula := fun s => "formula-" ++ s
    make_vasp_defect_files := fun _ _ => Except.ok ()
    post_process_parse := fun _ _ _ => Except.ok () }

/-- Lookup distributes over append, preferring the left list. -/
theorem dictLookup_append (d1 d2 : List (String × Int × Int)) (k : String) :
    dictLookup (d1 ++ d2) k =
      match dictLookup d1 k with
      | some v => some v
      | none => dictLookup d2 k := by
  induction d1 with
  | nil => simp [dictLookup]
  | cons p rest ih =>
    by_cases h : p.1 = k
    · simp [dictLookup, h]
    · simp [dictLookup, h, ih]

/-- A key absent from the dict (no entry passes the `any` test) looks up to
`none`. -/
theorem dictLookup_eq_none (d : List (String × Int × Int)) (k : String)
    (h : d.any (fun p => p.1 == k) = false) : dictLookup d k = none := by
  induction d with
  | nil => rfl
  | cons p rest ih =>
    simp only [List.any_cons, Bool.or_eq_false_iff] at h
    have h1 : ¬ p.1 = k := by
      intro he; rw [he] at h; simp at h
    simp [dictLookup, h1, ih h.2]

/-- Overwriting the entries for key `k` makes `k` look up to the new value,
provided `k` occurs. -/
theorem dictLookup_overwrite (d : List (String × Int × Int)) (k : String) (v : Int × Int)
    (hk : d.any (fun p => p.1 == k) = true) :
    dictLookup (d.map (fun p => if p.1 = k then (k, v) else p)) k = some v := by
  induction d with
  | nil => simp at hk
  | cons p rest ih =>
    obtain ⟨pk, pv⟩ := p
    by_cases h : pk = k
    · simp only [List.map_cons, if_pos h]
      simp [dictLookup]
    · have hb : (pk == k) = false := beq_eq_false_iff_ne.mpr h
      have hrest : rest.any (fun p => p.1 == k) = true := by
        simpa [hb] using hk
      simp only [List.map_cons, if_neg h]
      simp [dictLookup, h, ih hrest]

/-- Overwriting the entries for key `k` leaves lookups of other keys
unchanged. -/
theorem dictLookup_overwrite_ne (d : List (String × Int × Int)) (k k2 : String)
    (v : Int × Int) (hne : ¬ k = k2) :
    dictLookup (d.map (fun p => if p.1 = k then (k, v) else p)) k2 = dictLookup d k2 := by
  induction d with
  | nil => simp [dictLookup]
  | cons p rest ih =>
    obtain ⟨pk, pv⟩ := p
    by_cases h : pk = k
    · have hb3 : ¬ pk = k2 := by
        rw [h]; exact hne
      simp only [List.map_cons, if_pos h]
      simp [dictLookup, hne, hb3, ih]
    · simp only [List.map_cons, if_neg h]
      simp [dictLookup, ih]

/-- Characterisation of lookup after a Python dict assignment. -/
theorem dictLookup_dictInsert (d : List (String × Int × Int)) (k k2 : String)
    (v : Int × Int) :
    dictLookup (dictInsert d k v) k2 = if k = k2 then some v else dictLookup d k2 := by
  unfold dictInsert
  by_cases hany : d.any (fun p => p.1 == k) = true
  · rw [if_pos hany]
    by_cases hk : k = k2
    · subst hk
      rw [if_pos rfl, dictLookup_overwrite d k v hany]
    · rw [if_neg hk, dictLookup_overwrite_ne d k k2 v hk]
  · have hfalse : d.any (fun p => p.1 == k) = false := by
      revert hany; cases d.any (fun p => p.1 == k) <;> simp
    rw [if_neg hany, dictLookup_append]
    by_cases hk : k = k2
    · subst hk
      rw [dictLookup_eq_none d k hfalse]
      simp [dictLookup]
    · cases hl : dictLookup d k2 with
      | some w => simp [hl, hk]
      | none => simp [hl, dictLookup, hk, if_neg hk]

/-- The last `--oxi_range` triple naming element `k`, if any (only its two
bound strings are kept). -/
def lastBounds (l : List (String × String × String)) (k : String) :
    Option (String × String) :=
  l.foldl (fun acc t => if t.1 = k then some (t.2.1, t.2.2) else acc) none

/-- The fold underlying `lastBounds` either settles the answer from the
list or returns its initial accumulator. -/
theorem lastBounds_foldl_init (l : List (String × String × String)) (k : String)
    (i : Option (String × String)) :
    l.foldl (fun acc t => if t.1 = k then some (t.2.1, t.2.2) else acc) i =
      match l.foldl (fun acc t => if t.1 = k then some (t.2.1, t.2.2) else acc) none with
      | some v => some v
      | none => i := by
  induction l generalizing i with
  | nil => simp
  | cons t rest ih =>
    simp only [List.foldl_cons]
    rw [ih]
    rw [ih (if t.1 = k then some (t.2.1, t.2.2) else none)]
    cases hrest : rest.foldl (fun acc t => if t.1 = k then some (t.2.1, t.2.2) else acc) none with
    | some v => simp
    | none =>
      by_cases ht : t.1 = k
      · simp [ht]
      · simp [ht]

/-- Unfolding `lastBounds` on a cons cell. -/
theorem lastBounds_cons (t : String × String × String)
    (rest : List (String × String × String)) (k : String) :
    lastBounds (t :: rest) k =
      match lastBounds rest k with
      | some v => some v
      | none => if t.1 = k then some (t.2.1, t.2.2) else none := by
  unfold lastBounds
  simp only [List.foldl_cons]
  rw [lastBounds_foldl_init]

/-- Every triple's element has a last occurrence. -/
theorem lastBounds_isSome_of_mem (l : List (String × String × String))
    (t : String × String × String) (ht : t ∈ l) : (lastBounds l t.1).isSome := by
  induction l with
  | nil => cases ht
  | cons s rest ih =>
    rw [lastBounds_cons]
    rcases List.mem_cons.mp ht with h | h
    · cases hr : lastBounds rest t.1 with
      | some v => simp
      | none => subst h; simp
    · have hs := ih h
      cases hr : lastBounds rest t.1 with
      | some v => simp
      | none => rw [hr] at hs; simp at hs

/-- Unfolding `buildOxiDict` on the empty list. -/
theorem buildOxiDict_nil (d0 : List (String × Int × Int)) :
    buildOxiDict [] d0 = Except.ok d0 := rfl

/-- Unfolding `buildOxiDict` on a cons cell. -/
theorem buildOxiDict_cons (t : String × String × String)
    (rest : List (String × String × String)) (d0 : List (String × Int × Int)) :
    buildOxiDict (t :: rest) d0 =
      match pyInt t.2.1 with
      | Except.error e => Except.error e
      | Except.ok lo =>
        match pyInt t.2.2 with
        | Except.error e => Except.error e
        | Except.ok hi => buildOxiDict rest (dictInsert d0 t.1 (lo, hi)) := rfl

/-- Lookup in the dict built by the `oxi_range` loop: a key with no triple
keeps its initial binding, and a key named by some triple is bound to the
parsed bounds of the last such triple. -/
theorem buildOxiDict_lookup (l : List (String × String × String)) :
    ∀ d0 d, buildOxiDict l d0 = Except.ok d → ∀ k,
      (lastBounds l k = none → dictLookup d k = dictLookup d0 k) ∧
      (∀ lo hi, lastBounds l k = some (lo, hi) →
        ∃ a b, pyInt lo = Except.ok a ∧ pyInt hi = Except.ok b ∧
          dictLookup d k = some (a, b)) := by
  induction l with
  | nil =>
    intro d0 d h k
    rw [buildOxiDict_nil] at h
    cases h
    constructor
    · intro _; rfl
    · intro lo hi h2
      simp [lastBounds] at h2
  | cons t rest ih =>
    intro d0 d h k
    rw [buildOxiDict_cons] at h
    cases hlo : pyInt t.2.1 with
    | error e => rw [hlo] at h; cases h
    | ok lo0 =>
      cases hhi : pyInt t.2.2 with
      | error e => rw [hlo, hhi] at h; cases h
      | ok hi0 =>
        rw [hlo, hhi] at h
        have IH := ih (dictInsert d0 t.1 (lo0, hi0)) d h k
        cases hr : lastBounds rest k with
        | some v =>
          obtain ⟨lo, hi⟩ := v
          have hcons : lastBounds (t :: rest) k = some (lo, hi) := by
            rw [lastBounds_cons, hr]
          rw [hcons]
          constructor
          · intro hnone; cases hnone
          · intro lo2 hi2 hsome
            have h1 : lo = lo2 := congrArg (fun p => p.1) (Option.some.inj hsome)
            have h2 : hi = hi2 := congrArg (fun p => p.2) (Option.some.inj hsome)
            subst h1; subst h2
            exact IH.2 lo hi hr
        | none =>
          by_cases ht : t.1 = k
          · have hcons : lastBounds (t :: rest) k = some (t.2.1, t.2.2) := by
              rw [lastBounds_cons, hr, if_pos ht]
            rw [hcons]
            constructor
            · intro hnone; cases hnone
            · intro lo hi hsome
              have h1 : t.2.1 = lo := congrArg (fun p => p.1) (Option.some.inj hsome)
              have h2 : t.2.2 = hi := congrArg (fun p => p.2) (Option.some.inj hsome)
              subst h1; subst h2
              refine ⟨lo0, hi0, hlo, hhi, ?_⟩
              have hd := IH.1 hr
              rw [hd, dictLookup_dictInsert, if_pos ht]
          · have hcons : lastBounds (t :: rest) k = none := by
              rw [lastBounds_cons, hr, if_neg ht]
            rw [hcons]
            constructor
            · intro _
              have hd := IH.1 hr
              rw [hd, dictLookup_dictInsert, if_neg ht]
            · intro lo hi hsome
              cases hsome

/-- Both handlers begin with the `MPRester` construction and the structure
fetch whenever the identifier is truthy. -/
theorem gen_trace_take2 {σ δ π : Type} (env : Env σ δ π) (args : GenArgs) (m : String)
    (hm : args.mpid = some m) (hne : m.isEmpty = false) :
    ((generate_input_files env args).1).take 2 =
      [Effect.mpresterCtor (ctorKey args.mapi_key), Effect.fetchStructure m] := by
  cases hf : env.get_structure_by_material_id (ctorKey args.mapi_key) m with
  | error e => simp [generate_input_files, hm, pyStrFalsy, hne, hf]
  | ok prim => simp [generate_input_files, hm, pyStrFalsy, hne, hf]

/-- The `parse_vasp_output` trace also begins with the client construction
and the fetch when the identifier is truthy. -/
theorem parse_trace_take2 {σ δ π : Type} (env : Env σ δ π) (args : ParseArgs) (m : String)
    (hm : args.mpid = some m) (hne : m.isEmpty = false) :
    ((parse_vasp_output env args).1).take 2 =
      [Effect.mpresterCtor (ctorKey args.mapi_key), Effect.fetchStructure m] := by
  cases hf : env.get_structure_by_material_id (ctorKey args.mapi_key) m with
  | error e => simp [parse_vasp_output, hm, pyStrFalsy, hne, hf]
  | ok prim =>
    cases hp : env.post_process_parse args.root_fldr m args.mapi_key with
    | error e => simp [parse_vasp_output, hm, pyStrFalsy, hne, hf, hp]
    | ok u => cases u; simp [parse_vasp_output, hm, pyStrFalsy, hne, hf, hp]

/-- Once the fetch, the conventional-cell transformation and the dielectric
file writing have succeeded and the oxidation argument has been computed,
the first four effects of `generate_input_files` are fixed, whatever the
later collaborators do. -/
theorem gen_trace_take4 {σ δ π : Type} (env : Env σ δ π) (args : GenArgs) (m : String)
    (prim conv : σ) (od : Option (List (String × Int × Int)))
    (hm : args.mpid = some m) (hne : m.isEmpty = false)
    (hf : env.get_structure_by_material_id (ctorKey args.mapi_key) m = Except.ok prim)
    (hc : env.get_conventional_standard_structure prim = Except.ok conv)
    (hd : env.make_vasp_dielectric_files prim = Except.ok ())
    (ho : oxiDictResult args.oxi_range = Except.ok od) :
    ((generate_input_files env args).1).take 4 =
      [Effect.mpresterCtor (ctorKey args.mapi_key), Effect.fetchStructure m,
       Effect.makeVaspDielectricFiles prim,
       Effect.chargedDefectsStructuresCall conv od args.nmax] := by
  cases he : env.chargedDefectsStructures conv od args.nmax with
  | error e =>
    simp [generate_input_files, genAfterFetch, hm, pyStrFalsy, hne, hf, hc, hd, ho, he]
  | ok ds =>
    cases hw : env.make_vasp_defect_files (env.defects ds) (env.reduced_formula conv) with
    | error e =>
      simp [generate_input_files, genAfterFetch, hm, pyStrFalsy, hne, hf, hc, hd, ho, he, hw]
    | ok u =>
      cases u
      simp [generate_input_files, genAfterFetch, hm, pyStrFalsy, hne, hf, hc, hd, ho, he, hw]

/-- Full trace of `generate_input_files` once the defect enumeration
succeeded: the defect file writing is called with the enumerator's
`.defects` attribute and the conventional cell's reduced formula, whatever
its outcome. -/
theorem gen_trace_thru_cds {σ δ π : Type} (env : Env σ δ π) (args : GenArgs) (m : String)
    (prim conv : σ) (od : Option (List (String × Int × Int))) (ds : δ)
    (hm : args.mpid = some m) (hne : m.isEmpty = false)
    (hf : env.get_structure_by_material_id (ctorKey args.mapi_key) m = Except.ok prim)
    (hc : env.get_conventional_standard_structure prim = Except.ok conv)
    (hd : env.make_vasp_dielectric_files prim = Except.ok ())
    (ho : oxiDictResult args.oxi_range = Except.ok od)
    (he : env.chargedDefectsStructures conv od args.nmax = Except.ok ds) :
    (generate_input_files env args).1 =
      [Effect.mpresterCtor (ctorKey args.mapi_key), Effect.fetchStructure m,
       Effect.makeVaspDielectricFiles prim,
       Effect.chargedDefectsStructuresCall conv od args.nmax,
       Effect.makeVaspDefectFilesCall (env.defects ds) (env.reduced_formula conv)] := by
  cases hw : env.make_vasp_defect_files (env.defects ds) (env.reduced_formula conv) with
  | error e =>
    simp [generate_input_files, genAfterFetch, hm, pyStrFalsy, hne, hf, hc, hd, ho, he, hw]
  | ok u =>
    cases u
    simp [generate_input_files, genAfterFetch, hm, pyStrFalsy, hne, hf, hc, hd, ho, he, hw]

/-- Full trace of `parse_vasp_output` once the fetch succeeded: the
`PostProcess` call receives only the root folder, the identifier and the
key, whatever its outcome. -/
theorem parse_trace_ok {σ δ π : Type} (env : Env σ δ π) (args : ParseArgs) (m : String)
    (prim : σ) (hm : args.mpid = some m) (hne : m.isEmpty = false)
    (hf : env.get_structure_by_material_id (ctorKey args.mapi_key) m = Except.ok prim) :
    (parse_vasp_output env args).1 =
      [Effect.mpresterCtor (ctorKey args.mapi_key), Effect.fetchStructure m,
       Effect.postProcessCall args.root_fldr m args.mapi_key] := by
  cases hp : env.post_process_parse args.root_fldr m args.mapi_key with
  | error e => simp [parse_vasp_output, hm, pyStrFalsy, hne, hf, hp]
  | ok u => cases u; simp [parse_vasp_output, hm, pyStrFalsy, hne, hf, hp]

/-- Once the fetch and the conventional-cell transformation have succeeded,
the third effect is the dielectric file writing applied to the primitive
structure, whatever happens afterwards. -/
theorem gen_trace_take3 {σ δ π : Type} (env : Env σ δ π) (args : GenArgs) (m : String)
    (prim conv : σ)
    (hm : args.mpid = some m) (hne : m.isEmpty = false)
    (hf : env.get_structure_by_material_id (ctorKey args.mapi_key) m = Except.ok prim)
    (hc : env.get_conventional_standard_structure prim = Except.ok conv) :
    ((generate_input_files env args).1).take 3 =
      [Effect.mpresterCtor (ctorKey args.mapi_key), Effect.fetchStructure m,
       Effect.makeVaspDielectricFiles prim] := by
  cases hd : env.make_vasp_dielectric_files prim with
  | error e => simp [generate_input_files, genAfterFetch, hm, pyStrFalsy, hne, hf, hc, hd]
  | ok u =>
    cases u
    cases ho : oxiDictResult args.oxi_range with
    | error e =>
      simp [generate_input_files, genAfterFetch, hm, pyStrFalsy, hne, hf, hc, hd, ho]
    | ok od =>
      cases he : env.chargedDefectsStructures conv od args.nmax with
      | error e =>
        simp [generate_input_files, genAfterFetch, hm, pyStrFalsy, hne, hf, hc, hd, ho, he]
      | ok ds =>
        cases hw : env.make_vasp_defect_files (env.defects ds) (env.reduced_formula conv) with
        | error e =>
          simp [generate_input_files, genAfterFetch, hm, pyStrFalsy, hne, hf, hc, hd, ho,
            he, hw]
        | ok u2 =>
          cases u2
          simp [generate_input_files, genAfterFetch, hm, pyStrFalsy, hne, hf, hc, hd, ho,
            he, hw]

/-- Recogniser for `PostProcess` invocations in a trace. -/
def isPostProcessCall {σ δ π : Type} : Effect σ δ π → Bool
  | Effect.postProcessCall _ _ _ => true
  | _ => false

/-- A second fully successful environment whose database returns different
structure values than `envA` for the same identifier. -/
def envB : Env String String String :=
  { get_structure_by_material_id := fun _ m => Except.ok ("other-" ++ m)
    get_conventional_standard_structure := fun s => Except.ok ("conv-" ++ s)
    make_vasp_dielectric_files := fun _ => Except.ok ()
    chargedDefectsStructures := fun _ _ _ => Except.ok "cds"
    defects := fun d => d ++ "-defects"
    reduced_formula := fun s => "formula-" ++ s
    make_vasp_defect_files := fun _ _ => Except.ok ()
    post_process_parse := fun _ _ _ => Except.ok () }

/-- C1: invoking either subcommand with a missing or empty `--mpid` makes
the handler print exactly the error banner and return normally — the trace
holds the single print, so no database connection, no structure fetch and
no file write occur, and the outcome is a plain return with no raised
error and no non-zero exit code. -/
theorem c1_missing_mpid_banner {σ δ π : Type} (env : Env σ δ π)
    (gargs : GenArgs) (pargs : ParseArgs)
    (hg : gargs.mpid = none ∨ gargs.mpid = some "")
    (hp : pargs.mpid = none ∨ pargs.mpid = some "") :
    generate_input_files env gargs = ([Effect.print ERROR_BANNER], Except.ok ()) ∧
    parse_vasp_output env pargs = ([Effect.print ERROR_BANNER], Except.ok ()) := by
  have hfe : pyStrFalsy "" = true := rfl
  constructor
  · rcases hg with h | h
    · simp [generate_input_files, h]
    · simp [generate_input_files, h, hfe]
  · rcases hp with h | h
    · simp [parse_vasp_output, h]
    · simp [parse_vasp_output, h, hfe]

/-- Closed instance of C1: omitted identifier for one subcommand, empty
identifier for the other. -/
theorem c1_missing_mpid_banner_witness :
    generate_input_files envA
        { mpid := none, mapi_key := some "key", nmax := 128, oxi_range := none } =
      ([Effect.print ERROR_BANNER], Except.ok ()) ∧
    parse_vasp_output envA
        { mpid := some "", mapi_key := none, root_fldr := some "fldr" } =
      ([Effect.print ERROR_BANNER], Except.ok ()) :=
  c1_missing_mpid_banner envA
    { mpid := none, mapi_key := some "key", nmax := 128, oxi_range := none }
    { mpid := some "", mapi_key := none, root_fldr := some "fldr" }
    (Or.inl rfl) (Or.inr rfl)

/-- C3: with a truthy identifier, the fetched structure is converted to the
conventional standard cell, the defect enumerator is invoked on that
conventional cell, and the defect files are written from the enumerator's
defect set together with the conventional cell's reduced formula. -/
theorem c3_conventional_cell_flow {σ δ π : Type} (env : Env σ δ π) (args : GenArgs)
    (m : String) (prim conv : σ) (od : Option (List (String × Int × Int))) (ds : δ)
    (hm : args.mpid = some m) (hne : m.isEmpty = false)
    (hf : env.get_structure_by_material_id (ctorKey args.mapi_key) m = Except.ok prim)
    (hc : env.get_conventional_standard_structure prim = Except.ok conv)
    (hd : env.make_vasp_dielectric_files prim = Except.ok ())
    (ho : oxiDictResult args.oxi_range = Except.ok od)
    (he : env.chargedDefectsStructures conv od args.nmax = Except.ok ds) :
    (generate_input_files env args).1 =
      [Effect.mpresterCtor (ctorKey args.mapi_key), Effect.fetchStructure m,
       Effect.makeVaspDielectricFiles prim,
       Effect.chargedDefectsStructuresCall conv od args.nmax,
       Effect.makeVaspDefectFilesCall (env.defects ds) (env.reduced_formula conv)] :=
  gen_trace_thru_cds env args m prim conv od ds hm hne hf hc hd ho he

/-- Closed instance of C3 in the successful environment. -/
theorem c3_conventional_cell_flow_witness :
    (generate_input_files envA
        { mpid := some "mp-5", mapi_key := none, nmax := 128, oxi_range := none }).1 =
      [Effect.mpresterCtor none, Effect.fetchStructure "mp-5",
       Effect.makeVaspDielectricFiles "prim-mp-5",
       Effect.chargedDefectsStructuresCall "conv-prim-mp-5" none 128,
       Effect.makeVaspDefectFilesCall "cds-defects" "formula-conv-prim-mp-5"] :=
  c3_conventional_cell_flow envA
    { mpid := some "mp-5", mapi_key := none, nmax := 128, oxi_range := none }
    "mp-5" "prim-mp-5" "conv-prim-mp-5" none "cds"
    rfl rfl rfl rfl rfl rfl rfl

/-- C4: when `--oxi_range` is omitted (left `None`), the defect enumerator
is invoked with only the conventional structure and the cellmax cap — the
oxidation-range argument of the call is `none`. -/
theorem c4_no_oxi_range_argument {σ δ π : Type} (env : Env σ δ π) (args : GenArgs)
    (m : String) (prim conv : σ)
    (hoxi : args.oxi_range = none)
    (hm : args.mpid = some m) (hne : m.isEmpty = false)
    (hf : env.get_structure_by_material_id (ctorKey args.mapi_key) m = Except.ok prim)
    (hc : env.get_conventional_standard_structure prim = Except.ok conv)
    (hd : env.make_vasp_dielectric_files prim = Except.ok ()) :
    ((generate_input_files env args).1).take 4 =
      [Effect.mpresterCtor (ctorKey args.mapi_key), Effect.fetchStructure m,
       Effect.makeVaspDielectricFiles prim,
       Effect.chargedDefectsStructuresCall conv none args.nmax] := by
  have ho : oxiDictResult args.oxi_range = Except.ok none := by
    rw [hoxi]; rfl
  exact gen_trace_take4 env args m prim conv none hm hne hf hc hd ho

/-- Closed instance of C4. -/
theorem c4_no_oxi_range_argument_witness :
    ((generate_input_files envA
        { mpid := some "gaas", mapi_key := some "k", nmax := 500, oxi_range := none }).1).take 4 =
      [Effect.mpresterCtor (some "k"), Effect.fetchStructure "gaas",
       Effect.makeVaspDielectricFiles "prim-gaas",
       Effect.chargedDefectsStructuresCall "conv-prim-gaas" none 500] :=
  c4_no_oxi_range_argument envA
    { mpid := some "gaas", mapi_key := some "k", nmax := 500, oxi_range := none }
    "gaas" "prim-gaas" "conv-prim-gaas" rfl rfl rfl rfl rfl rfl

/-- C5: the parser gives `--nmax` the default 128 when it is omitted, and
whatever integer the argument holds is forwarded verbatim as the cellmax
cap of the `ChargedDefectsStructures` call, in the with- and without-
`oxi_range` branches alike (`od` ranges over both). -/
theorem c5_nmax_default_and_forwarded {σ δ π : Type} (env : Env σ δ π) (args : GenArgs)
    (m : String) (prim conv : σ) (od : Option (List (String × Int × Int)))
    (rawMpid rawKey : Option String) (rawOxi : Option (List (String × String × String)))
    (hm : args.mpid = some m) (hne : m.isEmpty = false)
    (hf : env.get_structure_by_material_id (ctorKey args.mapi_key) m = Except.ok prim)
    (hc : env.get_conventional_standard_structure prim = Except.ok conv)
    (hd : env.make_vasp_dielectric_files prim = Except.ok ())
    (ho : oxiDictResult args.oxi_range = Except.ok od) :
    (parseGenArgs rawMpid rawKey none rawOxi).nmax = 128 ∧
    ((generate_input_files env args).1).take 4 =
      [Effect.mpresterCtor (ctorKey args.mapi_key), Effect.fetchStructure m,
       Effect.makeVaspDielectricFiles prim,
       Effect.chargedDefectsStructuresCall conv od args.nmax] :=
  ⟨rfl, gen_trace_take4 env args m prim conv od hm hne hf hc hd ho⟩

/-- Closed instance of C5: omitted `--nmax` defaults to 128, and an
explicit 77 reaches the enumerator call unchanged (here in the
`oxi_range` branch). -/
theorem c5_nmax_default_and_forwarded_witness :
    (parseGenArgs (some "MP-1") none none none).nmax = 128 ∧
    ((generate_input_files envA
        { mpid := some "mp-2", mapi_key := none, nmax := 77,
          oxi_range := some [("ga", "-1", "2")] }).1).take 4 =
      [Effect.mpresterCtor none, Effect.fetchStructure "mp-2",
       Effect.makeVaspDielectricFiles "prim-mp-2",
       Effect.chargedDefectsStructuresCall "conv-prim-mp-2"
         (some [("ga", ((-1 : Int), (2 : Int)))]) 77] :=
  c5_nmax_default_and_forwarded envA
    { mpid := some "mp-2", mapi_key := none, nmax := 77,
      oxi_range := some [("ga", "-1", "2")] }
    "mp-2" "prim-mp-2" "conv-prim-mp-2" (some [("ga", ((-1 : Int), (2 : Int)))])
    (some "MP-1") none none
    rfl rfl rfl rfl rfl (by decide)

/-- C2 fails as stated: in an invocation whose `--oxi_range` triples name
the same element twice, the first triple ("as", "-3", "5") does not
produce an entry mapping "as" to (-3, 5) in the dict passed to the defect
enumerator — the later triple ("as", "0", "2") overwrote it. -/
theorem c2_oxi_range_counterexample :
    (generate_input_files envA
        { mpid := some "mp-1", mapi_key := none, nmax := 128,
          oxi_range := some [("as", "-3", "5"), ("as", "0", "2")] }).1 =
      [Effect.mpresterCtor none, Effect.fetchStructure "mp-1",
       Effect.makeVaspDielectricFiles "prim-mp-1",
       Effect.chargedDefectsStructuresCall "conv-prim-mp-1"
         (some [("as", ((0 : Int), (2 : Int)))]) 128,
       Effect.makeVaspDefectFilesCall "cds-defects" "formula-conv-prim-mp-1"] ∧
    dictLookup [("as", ((0 : Int), (2 : Int)))] "as" ≠ some ((-3 : Int), (5 : Int)) := by
  constructor
  · decide
  · decide

/-- C2 amended: every `--oxi_range` triple produces an entry for its
element in the oxidation-range dict — bound to the parsed integer bounds
of the LAST triple naming that element, a later triple overwriting an
earlier one — and the dict is passed unchanged as the second argument of
the `ChargedDefectsStructures` call. -/
theorem c2_amended_oxi_dict {σ δ π : Type} (env : Env σ δ π) (args : GenArgs)
    (m : String) (prim conv : σ) (l : List (String × String × String))
    (dct : List (String × Int × Int))
    (hm : args.mpid = some m) (hne : m.isEmpty = false)
    (hox : args.oxi_range = some l) (hl : l.isEmpty = false)
    (hb : buildOxiDict l [] = Except.ok dct)
    (hf : env.get_structure_by_material_id (ctorKey args.mapi_key) m = Except.ok prim)
    (hc : env.get_conventional_standard_structure prim = Except.ok conv)
    (hd : env.make_vasp_dielectric_files prim = Except.ok ()) :
    Effect.chargedDefectsStructuresCall conv (some dct) args.nmax ∈
      (generate_input_files env args).1 ∧
    ∀ t ∈ l, ∃ lo hi a b, lastBounds l t.1 = some (lo, hi) ∧
      pyInt lo = Except.ok a ∧ pyInt hi = Except.ok b ∧
      dictLookup dct t.1 = some (a, b) := by
  have ho : oxiDictResult args.oxi_range = Except.ok (some dct) := by
    rw [hox]
    simp [oxiDictResult, hl, hb]
  constructor
  · have h4 := gen_trace_take4 env args m prim conv (some dct) hm hne hf hc hd ho
    have hsub : ((generate_input_files env args).1).take 4 ⊆
        (generate_input_files env args).1 := List.take_subset 4 _
    apply hsub
    rw [h4]
    simp
  · intro t ht
    have hsome := lastBounds_isSome_of_mem l t ht
    cases hr : lastBounds l t.1 with
    | none => rw [hr] at hsome; simp at hsome
    | some v =>
      obtain ⟨lo, hi⟩ := v
      obtain ⟨a, b, ha, hbp, hdl⟩ := (buildOxiDict_lookup l [] dct hb t.1).2 lo hi hr
      exact ⟨lo, hi, a, b, rfl, ha, hbp, hdl⟩

/-- Closed instance of C2 as amended, at distinct elements: the triple
("as", "-3", "5") yields the entry "as" maps-to (-3, 5) in the dict passed
to the enumerator. -/
theorem c2_amended_oxi_dict_witness :
    Effect.chargedDefectsStructuresCall "conv-prim-mp-1"
        (some [("as", ((-3 : Int), (5 : Int))), ("ga", ((0 : Int), (2 : Int)))]) 128 ∈
      (generate_input_files envA
        { mpid := some "mp-1", mapi_key := none, nmax := 128,
          oxi_range := some [("as", "-3", "5"), ("ga", "0", "2")] }).1 ∧
    (∃ lo hi a b,
      lastBounds [("as", "-3", "5"), ("ga", "0", "2")] "as" = some (lo, hi) ∧
      pyInt lo = Except.ok a ∧ pyInt hi = Except.ok b ∧
      dictLookup [("as", ((-3 : Int), (5 : Int))), ("ga", ((0 : Int), (2 : Int)))] "as" =
        some (a, b)) := by
  have h := c2_amended_oxi_dict envA
    { mpid := some "mp-1", mapi_key := none, nmax := 128,
      oxi_range := some [("as", "-3", "5"), ("ga", "0", "2")] }
    "mp-1" "prim-mp-1" "conv-prim-mp-1"
    [("as", "-3", "5"), ("ga", "0", "2")]
    [("as", ((-3 : Int), (5 : Int))), ("ga", ((0 : Int), (2 : Int)))]
    rfl rfl rfl rfl (by decide) rfl rfl rfl
  exact ⟨h.1, h.2 ("as", "-3", "5") (by simp)⟩

/-- C6 fails as stated: supplying an empty `--mapi_key` string makes the
handler construct `MPRester` with no key argument (the `if not mapi_key:`
check treats the empty key like an omitted one), not with the supplied
key. -/
theorem c6_mapi_key_counterexample :
    ((generate_input_files envA
        { mpid := some "mp-1", mapi_key := some "", nmax := 128,
          oxi_range := none }).1).take 1 = [Effect.mpresterCtor none] ∧
    (Effect.mpresterCtor (some "") : Effect String String String) ≠
      Effect.mpresterCtor none := by
  constructor
  · decide
  · decide

/-- C6 amended: in both handlers the `MPRester` client is constructed with
the key argument `ctorKey mapi_key`: a supplied non-empty key is passed
through, while an omitted key (`None`) or a supplied empty string yields
the no-argument constructor that falls back to the environment-configured
key. -/
theorem c6_amended_ctor_key {σ δ π : Type} (env : Env σ δ π)
    (gargs : GenArgs) (pargs : ParseArgs) (mg mp2 : String)
    (hmg : gargs.mpid = some mg) (hneg : mg.isEmpty = false)
    (hmp : pargs.mpid = some mp2) (hnep : mp2.isEmpty = false) :
    ((generate_input_files env gargs).1).take 1 =
      [Effect.mpresterCtor (ctorKey gargs.mapi_key)] ∧
    ((parse_vasp_output env pargs).1).take 1 =
      [Effect.mpresterCtor (ctorKey pargs.mapi_key)] ∧
    (∀ k : String, k.isEmpty = false → ctorKey (some k) = some k) ∧
    ctorKey none = none ∧ ctorKey (some "") = none := by
  refine ⟨?_, ?_, ?_, rfl, rfl⟩
  · have h2 := gen_trace_take2 env gargs mg hmg hneg
    have h1 : ((generate_input_files env gargs).1).take 1 =
        (((generate_input_files env gargs).1).take 2).take 1 := by
      rw [List.take_take]
      norm_num
    rw [h1, h2]
    simp
  · have h2 := parse_trace_take2 env pargs mp2 hmp hnep
    have h1 : ((parse_vasp_output env pargs).1).take 1 =
        (((parse_vasp_output env pargs).1).take 2).take 1 := by
      rw [List.take_take]
      norm_num
    rw [h1, h2]
    simp
  · intro k hk
    simp [ctorKey, hk]

/-- Closed instance of C6 as amended: a non-empty key is passed through,
an omitted key yields the no-argument constructor. -/
theorem c6_amended_ctor_key_witness :
    ((generate_input_files envA
        { mpid := some "mp-1", mapi_key := some "secret", nmax := 128,
          oxi_range := none }).1).take 1 = [Effect.mpresterCtor (some "secret")] ∧
    ((parse_vasp_output envA
        { mpid := some "mp-2", mapi_key := none, root_fldr := none }).1).take 1 =
      [Effect.mpresterCtor none] := by
  have h := c6_amended_ctor_key envA
    { mpid := some "mp-1", mapi_key := some "secret", nmax := 128, oxi_range := none }
    { mpid := some "mp-2", mapi_key := none, root_fldr := none }
    "mp-1" "mp-2" rfl rfl rfl rfl
  exact ⟨h.1, h.2.1⟩

/-- C7: neither handler catches anything: with a truthy identifier, a
failure of the database fetch, of the conventional-cell transformation, of
the dielectric writer, of an int() conversion of an oxidation bound, of
the defect enumerator, of the defect file writer, or of `PostProcess`
propagates out of the handler as the raised exception. -/
theorem c7_failures_propagate {σ δ π : Type} (env : Env σ δ π)
    (gargs : GenArgs) (pargs : ParseArgs) (mg mp2 : String)
    (prim conv : σ) (od : Option (List (String × Int × Int))) (ds : δ) (e : PyExc)
    (hmg : gargs.mpid = some mg) (hneg : mg.isEmpty = false)
    (hmp : pargs.mpid = some mp2) (hnep : mp2.isEmpty = false) :
    (env.get_structure_by_material_id (ctorKey gargs.mapi_key) mg = Except.error e →
      (generate_input_files env gargs).2 = Except.error e) ∧
    (env.get_structure_by_material_id (ctorKey gargs.mapi_key) mg = Except.ok prim →
      env.get_conventional_standard_structure prim = Except.error e →
      (generate_input_files env gargs).2 = Except.error e) ∧
    (env.get_structure_by_material_id (ctorKey gargs.mapi_key) mg = Except.ok prim →
      env.get_conventional_standard_structure prim = Except.ok conv →
      env.make_vasp_dielectric_files prim = Except.error e →
      (generate_input_files env gargs).2 = Except.error e) ∧
    (env.get_structure_by_material_id (ctorKey gargs.mapi_key) mg = Except.ok prim →
      env.get_conventional_standard_structure prim = Except.ok conv →
      env.make_vasp_dielectric_files prim = Except.ok () →
      oxiDictResult gargs.oxi_range = Except.error e →
      (generate_input_files env gargs).2 = Except.error e) ∧
    (env.get_structure_by_material_id (ctorKey gargs.mapi_key) mg = Except.ok prim →
      env.get_conventional_standard_structure prim = Except.ok conv →
      env.make_vasp_dielectric_files prim = Except.ok () →
      oxiDictResult gargs.oxi_range = Except.ok od →
      env.chargedDefectsStructures conv od gargs.nmax = Except.error e →
      (generate_input_files env gargs).2 = Except.error e) ∧
    (env.get_structure_by_material_id (ctorKey gargs.mapi_key) mg = Except.ok prim →
      env.get_conventional_standard_structure prim = Except.ok conv →
      env.make_vasp_dielectric_files prim = Except.ok () →
      oxiDictResult gargs.oxi_range = Except.ok od →
      env.chargedDefectsStructures conv od gargs.nmax = Except.ok ds →
      env.make_vasp_defect_files (env.defects ds) (env.reduced_formula conv) =
        Except.error e →
      (generate_input_files env gargs).2 = Except.error e) ∧
    (env.get_structure_by_material_id (ctorKey pargs.mapi_key) mp2 = Except.error e →
      (parse_vasp_output env pargs).2 = Except.error e) ∧
    (∀ prim2 : σ,
      env.get_structure_by_material_id (ctorKey pargs.mapi_key) mp2 = Except.ok prim2 →
      env.post_process_parse pargs.root_fldr mp2 pargs.mapi_key = Except.error e →
      (parse_vasp_output env pargs).2 = Except.error e) := by
  refine ⟨?_, ?_, ?_, ?_, ?_, ?_, ?_, ?_⟩
  · intro hf
    simp [generate_input_files, hmg, pyStrFalsy, hneg, hf]
  · intro hf hc
    simp [generate_input_files, genAfterFetch, hmg, pyStrFalsy, hneg, hf, hc]
  · intro hf hc hd
    simp [generate_input_files, genAfterFetch, hmg, pyStrFalsy, hneg, hf, hc, hd]
  · intro hf hc hd ho
    simp [generate_input_files, genAfterFetch, hmg, pyStrFalsy, hneg, hf, hc, hd, ho]
  · intro hf hc hd ho he
    simp [generate_input_files, genAfterFetch, hmg, pyStrFalsy, hneg, hf, hc, hd, ho, he]
  · intro hf hc hd ho he hw
    simp [generate_input_files, genAfterFetch, hmg, pyStrFalsy, hneg, hf, hc, hd, ho, he, hw]
  · intro hf
    simp [parse_vasp_output, hmp, pyStrFalsy, hnep, hf]
  · intro prim2 hf hp
    simp [parse_vasp_output, hmp, pyStrFalsy, hnep, hf, hp]

/-- Closed instance of C7: a malformed oxidation bound ("x") raises a
ValueError out of the int() conversion, and the handler terminates with
exactly that exception. -/
theorem c7_failures_propagate_witness :
    (generate_input_files envA
        { mpid := some "mp-1", mapi_key := none, nmax := 128,
          oxi_range := some [("as", "x", "5")] }).2 =
      Except.error (PyExc.valueError "invalid literal for int() with base 10: x") := by
  have h := c7_failures_propagate envA
    { mpid := some "mp-1", mapi_key := none, nmax := 128,
      oxi_range := some [("as", "x", "5")] }
    { mpid := some "mp-9", mapi_key := none, root_fldr := none }
    "mp-1" "mp-9" "prim-mp-1" "conv-prim-mp-1" none "cds"
    (PyExc.valueError "invalid literal for int() with base 10: x")
    rfl rfl rfl rfl
  exact h.2.2.2.1 rfl rfl rfl (by decide)

/-- C8: the parser lowercases the `--mpid` string (`type=str.lower`)
before any use, so both subcommands store the lowercase form and the
identifier reaching the structure fetch and the `PostProcess` call is the
lowercase form of whatever the user typed. -/
theorem c8_mpid_lowercased {σ δ π : Type} (env : Env σ δ π) (s : String)
    (rawKey : Option String) (rawNmax : Option Int)
    (rawOxi : Option (List (String × String × String))) (rawDir : Option String)
    (prim : σ)
    (hne : (pyStrLower s).isEmpty = false)
    (hf : env.get_structure_by_material_id (ctorKey rawKey) (pyStrLower s) =
      Except.ok prim) :
    (parseGenArgs (some s) rawKey rawNmax rawOxi).mpid = some (pyStrLower s) ∧
    (parseParseArgs (some s) rawKey rawDir).mpid = some (pyStrLower s) ∧
    ((generate_input_files env (parseGenArgs (some s) rawKey rawNmax rawOxi)).1).take 2 =
      [Effect.mpresterCtor (ctorKey rawKey), Effect.fetchStructure (pyStrLower s)] ∧
    (parse_vasp_output env (parseParseArgs (some s) rawKey rawDir)).1 =
      [Effect.mpresterCtor (ctorKey rawKey), Effect.fetchStructure (pyStrLower s),
       Effect.postProcessCall rawDir (pyStrLower s) rawKey] := by
  refine ⟨rfl, rfl, ?_, ?_⟩
  · exact gen_trace_take2 env (parseGenArgs (some s) rawKey rawNmax rawOxi)
      (pyStrLower s) rfl hne
  · exact parse_trace_ok env (parseParseArgs (some s) rawKey rawDir)
      (pyStrLower s) prim rfl hne hf

/-- Closed instance of C8: the mixed-case identifier "MP-149K" reaches the
collaborators as "mp-149k". -/
theorem c8_mpid_lowercased_witness :
    pyStrLower "MP-149K" = "mp-149k" ∧
    (parseGenArgs (some "MP-149K") none none none).mpid = some "mp-149k" ∧
    (parse_vasp_output envA (parseParseArgs (some "MP-149K") none (some "dir"))).1 =
      [Effect.mpresterCtor none, Effect.fetchStructure "mp-149k",
       Effect.postProcessCall (some "dir") "mp-149k" none] := by
  have h := c8_mpid_lowercased envA "MP-149K" none none none (some "dir")
    "prim-mp-149k" (by decide) (by decide)
  refine ⟨by decide, ?_, ?_⟩
  · have h1 := h.1
    rw [show pyStrLower "MP-149K" = "mp-149k" by decide] at h1
    exact h1
  · have h4 := h.2.2.2
    rw [show pyStrLower "MP-149K" = "mp-149k" by decide] at h4
    exact h4

/-- C9: `parse_vasp_output` discards the fetched structure: the
`PostProcess` invocation receives only the root folder, the identifier and
the key, so two runs with the same arguments whose databases return
different structures make the identical `PostProcess` call. -/
theorem c9_postprocess_ignores_structure {σ δ π : Type}
    (env1 env2 : Env σ δ π) (args : ParseArgs) (m : String) (p1 p2 : σ)
    (hm : args.mpid = some m) (hne : m.isEmpty = false)
    (h1 : env1.get_structure_by_material_id (ctorKey args.mapi_key) m = Except.ok p1)
    (h2 : env2.get_structure_by_material_id (ctorKey args.mapi_key) m = Except.ok p2) :
    List.filter isPostProcessCall (parse_vasp_output env1 args).1 =
      List.filter isPostProcessCall (parse_vasp_output env2 args).1 ∧
    List.filter isPostProcessCall (parse_vasp_output env1 args).1 =
      [Effect.postProcessCall args.root_fldr m args.mapi_key] := by
  have t1 := parse_trace_ok env1 args m p1 hm hne h1
  have t2 := parse_trace_ok env2 args m p2 hm hne h2
  rw [t1, t2]
  constructor
  · rfl
  · simp [isPostProcessCall]

/-- Closed instance of C9: two databases returning different structures
for "mp-3" lead to the same single PostProcess call. -/
theorem c9_postprocess_ignores_structure_witness :
    List.filter isPostProcessCall
        (parse_vasp_output envA
          { mpid := some "mp-3", mapi_key := some "k", root_fldr := some "d" }).1 =
      List.filter isPostProcessCall
        (parse_vasp_output envB
          { mpid := some "mp-3", mapi_key := some "k", root_fldr := some "d" }).1 ∧
    List.filter isPostProcessCall
        (parse_vasp_output envA
          { mpid := some "mp-3", mapi_key := some "k", root_fldr := some "d" }).1 =
      [Effect.postProcessCall (some "d") "mp-3" (some "k")] :=
  c9_postprocess_ignores_structure envA envB
    { mpid := some "mp-3", mapi_key := some "k", root_fldr := some "d" }
    "mp-3" "prim-mp-3" "other-mp-3" rfl rfl rfl rfl

/-- C10: the dielectric input files are generated from the primitive
structure exactly as fetched from the database (the third effect applies
the dielectric writer to `prim`), while the defect enumeration that
follows is invoked on the conventional standard cell. -/
theorem c10_dielectric_from_primitive {σ δ π : Type} (env : Env σ δ π)
    (args : GenArgs) (m : String) (prim conv : σ)
    (hm : args.mpid = some m) (hne : m.isEmpty = false)
    (hf : env.get_structure_by_material_id (ctorKey args.mapi_key) m = Except.ok prim)
    (hc : env.get_conventional_standard_structure prim = Except.ok conv) :
    ((generate_input_files env args).1).take 3 =
      [Effect.mpresterCtor (ctorKey args.mapi_key), Effect.fetchStructure m,
       Effect.makeVaspDielectricFiles prim] ∧
    (env.make_vasp_dielectric_files prim = Except.ok () →
      ∀ od, oxiDictResult args.oxi_range = Except.ok od →
        ((generate_input_files env args).1).take 4 =
          [Effect.mpresterCtor (ctorKey args.mapi_key), Effect.fetchStructure m,
           Effect.makeVaspDielectricFiles prim,
           Effect.chargedDefectsStructuresCall conv od args.nmax]) := by
  constructor
  · exact gen_trace_take3 env args m prim conv hm hne hf hc
  · intro hd od ho
    exact gen_trace_take4 env args m prim conv od hm hne hf hc hd ho

/-- Closed instance of C10: the dielectric writer receives "prim-mp-7",
the enumerator receives "conv-prim-mp-7". -/
theorem c10_dielectric_from_primitive_witness :
    ((generate_input_files envA
        { mpid := some "mp-7", mapi_key := none, nmax := 128,
          oxi_range := none }).1).take 3 =
      [Effect.mpresterCtor none, Effect.fetchStructure "mp-7",
       Effect.makeVaspDielectricFiles "prim-mp-7"] ∧
    ((generate_input_files envA
        { mpid := some "mp-7", mapi_key := none, nmax := 128,
          oxi_range := none }).1).take 4 =
      [Effect.mpresterCtor none, Effect.fetchStructure "mp-7",
       Effect.makeVaspDielectricFiles "prim-mp-7",
       Effect.chargedDefectsStructuresCall "conv-prim-mp-7" none 128] := by
  have h := c10_dielectric_from_primitive envA
    { mpid := some "mp-7", mapi_key := none, nmax := 128, oxi_range := none }
    "mp-7" "prim-mp-7" "conv-prim-mp-7" rfl rfl rfl rfl
  exact ⟨h.1, h.2 rfl none rfl⟩
